import Mathlib

/-! Shallow embedding of the animated-background code of this repository
(topology.js, webgl.js, the unnamed flow-field background file, main.js glue).

JavaScript numbers are modelled as exact rationals; the transcendental
library functions (Math.sin, Math.cos, Math.PI) and the random source
(Math.random) are passed in as explicit environment parameters, so every
definition below is a deterministic function of the code's inputs and of
that environment.  Sequential calls to Math.random are modelled by a
stream `rand : Nat -> Rat` together with a threaded counter. -/

/-- hexToRgb from topology.js lines 21-26: channel decomposition of an
integer hex color using shifts and masks. -/
def hexToRgb (hex : Nat) : Nat × Nat × Nat :=
  ((hex >>> 16) &&& 255, (hex >>> 8) &&& 255, hex &&& 255)

/-- Mutable velocity-tracking state shared (field for field) by
WebGLBackground and TorusBackground. -/
structure VelState where
  scrollY : ℚ
  lastScrollY : ℚ
  scrollVelocity : ℚ
  mouseX : ℚ
  mouseY : ℚ
  lastMouseX : ℚ
  lastMouseY : ℚ
  mouseVelocity : ℚ
  speedMultiplier : ℚ
  targetSpeedMultiplier : ℚ
deriving DecidableEq

/-- The combined velocity computed inside updateVelocity:
scrollVelocity (|scroll delta| * 0.1) plus mouseVelocity
((|dx| + |dy|) * 5). -/
def combinedVelocity (st : VelState) : ℚ :=
  |st.scrollY - st.lastScrollY| * 0.1 +
    (|st.mouseX - st.lastMouseX| + |st.mouseY - st.lastMouseY|) * 5

/-- The freshly assigned target speed multiplier:
1 + min(combinedVelocity * 3, 4). -/
def targetMult (cv : ℚ) : ℚ := 1 + min (cv * 3) 4

/-- updateVelocity from the flow-field background (part_000 lines 262-284)
and TorusBackground (webgl.js lines 356-372); the two bodies are textually
identical.  Statement order of the source is preserved: velocities and
last-positions first, then the target is assigned, then the live
multiplier moves toward the target, then the target decays toward 1. -/
def updateVelocity (st : VelState) : VelState :=
  let scrollDelta := |st.scrollY - st.lastScrollY|
  let scrollVelocity := scrollDelta * 0.1
  let mouseDeltaX := |st.mouseX - st.lastMouseX|
  let mouseDeltaY := |st.mouseY - st.lastMouseY|
  let mouseVelocity := (mouseDeltaX + mouseDeltaY) * 5
  let cv := scrollVelocity + mouseVelocity
  let target1 := 1 + min (cv * 3) 4
  let speed1 := st.speedMultiplier + (target1 - st.speedMultiplier) * 0.08
  let target2 := target1 + (1 - target1) * 0.02
  { st with
    scrollVelocity := scrollVelocity
    lastScrollY := st.scrollY
    mouseVelocity := mouseVelocity
    lastMouseX := st.mouseX
    lastMouseY := st.mouseY
    speedMultiplier := speed1
    targetSpeedMultiplier := target2 }

/-- Iterated animation ticks of updateVelocity (the per-frame call in
animate, with the external scroll/mouse inputs unchanged between ticks). -/
def iterVel : ℕ → VelState → VelState
  | 0, st => st
  | n + 1, st => updateVelocity (iterVel n st)

/-- Quiet inputs: the external inputs currently equal their remembered
last values, so the frame sees zero velocity. -/
def quietInputs (st : VelState) : Prop :=
  st.lastScrollY = st.scrollY ∧ st.lastMouseX = st.mouseX ∧
    st.lastMouseY = st.mouseY

instance (st : VelState) : Decidable (quietInputs st) := by
  unfold quietInputs; infer_instance

/-- Flow-field grid side length (part_000 line 188: this.flowFieldSize = 20). -/
def flowFieldSize : ℕ := 20

/-- One flow-field cell: an (angle, strength) pair. -/
structure FlowCell where
  angle : ℚ
  strength : ℚ
deriving DecidableEq

/-- The flat grid index computed inside getFlowAt:
floor(y * (gridSize - 1)) * gridSize + floor(x * (gridSize - 1)). -/
def flowIdx (x y : ℚ) : ℤ :=
  ⌊y * ((flowFieldSize : ℚ) - 1)⌋ * (flowFieldSize : ℤ) +
    ⌊x * ((flowFieldSize : ℚ) - 1)⌋

/-- getFlowAt from part_000 lines 198-213: total lookup with a zero-vector
fallback when the computed index is outside the field array. -/
def getFlowAt (sinQ cosQ : ℚ → ℚ) (field : List FlowCell)
    (x y time : ℚ) : ℚ × ℚ :=
  let idx := flowIdx x y
  if 0 ≤ idx ∧ idx < (field.length : ℤ) then
    let flow := field.getD idx.toNat ⟨0, 0⟩
    let animatedAngle :=
      flow.angle + sinQ (time * 0.0003 + (idx : ℚ) * 0.1) * 0.5
    (cosQ animatedAngle * flow.strength, sinQ animatedAngle * flow.strength)
  else (0, 0)

/-- The sinusoidal-hash pseudo-noise from part_000 lines 216-220. -/
def noise (sinQ : ℚ → ℚ) (x y t : ℚ) : ℚ :=
  let n1 := sinQ (x * 12.9898 + y * 78.233 + t * 0.5) * 43758.5453
  let n2 := sinQ (x * 39.346 + y * 11.135 + t * 0.3) * 27934.4328
  ((n1 - (⌊n1⌋ : ℚ)) + (n2 - (⌊n2⌋ : ℚ))) * 0.5

/-- A flow-field particle (part_000 lines 162-177).  currentAlpha and
currentHue start undefined and are assigned on the first update; Option
models the JavaScript undefined. -/
structure Particle where
  x : ℚ
  y : ℚ
  baseX : ℚ
  baseY : ℚ
  size : ℚ
  alpha : ℚ
  speed : ℚ
  offset : ℚ
  noiseOffset : ℚ
  hue : ℚ
  baseHue : ℚ
  currentAlpha : Option ℚ := none
  currentHue : Option ℚ := none
deriving DecidableEq

/-- The two sequential wrap checks of part_000 lines 316-319 applied to
one coordinate and its base: the first branch assigns 1.1, which does not
satisfy the second branch's strict test, so the sequence is an if/else
chain. -/
def wrapCoord (x base : ℚ) : ℚ × ℚ :=
  if x < -0.1 then (1.1, 1.1)
  else if x > 1.1 then (-0.1, -0.1)
  else (x, base)

/-- One particle's body of the updateParticles loop (part_000 lines
290-330), with the two Math.random() calls drawn from the stream at
positions k and k+1. -/
def updateParticle (sinQ cosQ : ℚ → ℚ) (rand : ℕ → ℚ)
    (field : List FlowCell) (time speed : ℚ) (p : Particle) (k : ℕ) :
    Particle × ℕ :=
  let flow := getFlowAt sinQ cosQ field p.x p.y time
  let noiseVal := noise sinQ (p.x * 3) (p.y * 3) (time * 0.001)
  let noiseX :=
    sinQ (time * p.speed * 15 * speed + p.offset + noiseVal * 6.28) * 0.025
  let noiseY :=
    cosQ (time * p.speed * 12 * speed + p.offset * 1.3 + noiseVal * 3.14) *
      0.025
  let flowX := flow.1 * 0.0008 * speed
  let flowY := flow.2 * 0.0008 * speed
  let driftX := sinQ (time * 0.0002 * speed + p.offset) * 0.06
  let driftY := cosQ (time * 0.00015 * speed + p.offset) * 0.06
  let x1 := p.baseX + noiseX + driftX + flowX
  let y1 := p.baseY + noiseY + driftY + flowY
  let bx1 := p.baseX + (rand k - 0.5) * 0.0002 * speed
  let by1 := p.baseY + (rand (k + 1) - 0.5) * 0.0002 * speed
  let xw := wrapCoord x1 bx1
  let yw := wrapCoord y1 by1
  let pulseSpeed := 0.002 * speed
  let ca := p.alpha * (0.6 + sinQ (time * pulseSpeed + p.offset) * 0.4) *
    (0.7 + speed * 0.3)
  let ch := p.baseHue + sinQ (time * 0.0005 + xw.1 * 2) * 0.05 * speed
  let p2 := { p with
    x := xw.1
    baseX := xw.2
    y := yw.1
    baseY := yw.2
    currentAlpha := some ca
    currentHue := some ch }
  (p2, k + 2)

/-- updateParticles: the loop over the particle array, threading the
random-stream counter. -/
def updateParticles (sinQ cosQ : ℚ → ℚ) (rand : ℕ → ℚ)
    (field : List FlowCell) (time speed : ℚ) :
    List Particle → ℕ → List Particle × ℕ
  | [], k => ([], k)
  | p :: ps, k =>
    let pk := updateParticle sinQ cosQ rand field time speed p k
    let rk := updateParticles sinQ cosQ rand field time speed ps pk.2
    (pk.1 :: rk.1, rk.2)

/-- n animation ticks of updateParticles; the per-tick time counter and
speed multiplier are supplied by arbitrary sequences, covering whatever
values the animate loop feeds in. -/
def updateTicks (sinQ cosQ : ℚ → ℚ) (rand : ℕ → ℚ)
    (field : List FlowCell) (times speeds : ℕ → ℚ) :
    ℕ → List Particle × ℕ → List Particle × ℕ
  | 0, s => s
  | n + 1, s =>
    let prev := updateTicks sinQ cosQ rand field times speeds n s
    updateParticles sinQ cosQ rand field (times n) (speeds n) prev.1 prev.2

/-- JavaScript `a || b` on a possibly-undefined number: undefined and 0
are falsy. -/
def jsOr (o : Option ℚ) (d : ℚ) : ℚ :=
  match o with
  | none => d
  | some v => if v = 0 then d else v

/-- The per-frame attribute arrays built in WebGLBackground.render
(part_000 lines 350-361): (positions, sizes, alphas, hues) in push
order. -/
def buildFlowArrays (dpr : ℚ) :
    List Particle → List ℚ × List ℚ × List ℚ × List ℚ
  | [] => ([], [], [], [])
  | p :: ps =>
    let rest := buildFlowArrays dpr ps
    (p.x :: p.y :: rest.1,
      (p.size * dpr :: rest.2.1,
        (jsOr p.currentAlpha p.alpha :: rest.2.2.1,
          jsOr p.currentHue p.hue :: rest.2.2.2)))

/-- Torus major radius (webgl.js line 18: this.torusR = 1.0). -/
def torusR : ℚ := 1

/-- Torus minor radius (webgl.js line 19: this.torusr = 0.35). -/
def torusr : ℚ := 0.35

/-- getTorusPoint from webgl.js lines 129-141: a (u, v) surface point of
the morphing torus. -/
def getTorusPoint (sinQ cosQ : ℚ → ℚ) (u v morphTime : ℚ) : ℚ × ℚ × ℚ :=
  let morphR := torusR + sinQ (morphTime * 0.5 + u * 2) * 0.08 +
    sinQ (morphTime * 0.3 + v * 3) * 0.05
  let morphr := torusr + sinQ (morphTime * 0.7 + u * 3) * 0.03 +
    cosQ (morphTime * 0.4 + v * 2) * 0.02
  ((morphR + morphr * cosQ v) * cosQ u,
    ((morphR + morphr * cosQ v) * sinQ u, morphr * sinQ v))

/-- A torus traffic particle (webgl.js lines 105-125), with the fields
written by updateTrafficParticles defaulted for the pre-update state. -/
structure TrafficParticle where
  u : ℚ
  v : ℚ
  dirU : ℚ
  dirV : ℚ
  trailLength : ℕ
  hue : ℚ
  alpha : ℚ
  size : ℚ
  speedVar : ℚ
  phase : ℚ
  x : ℚ := 0
  y : ℚ := 0
  z : ℚ := 0
  currentAlpha : ℚ := 0
deriving DecidableEq

/-- The trail sample indices t = 1, ..., trailLength - 1 of the inner
loop of TorusBackground.render (webgl.js line 553). -/
def trailIdx (n : ℕ) : List ℕ := (List.range (n - 1)).map (· + 1)

/-- The flattened (x, y, z) trail samples of one particle, evaluated at
backward-offset angular coordinates (webgl.js lines 553-558). -/
def trailPositions (sinQ cosQ : ℚ → ℚ) (morphTime : ℚ)
    (p : TrafficParticle) : List ℚ :=
  (trailIdx p.trailLength).flatMap fun t : ℕ =>
    let q := getTorusPoint sinQ cosQ (p.u - p.dirU * (t : ℚ) * 2)
      (p.v - p.dirV * (t : ℚ) * 2) morphTime
    [q.1, q.2.1, q.2.2]

/-- The trail alpha samples of one particle (webgl.js line 559). -/
def trailAlphas (p : TrafficParticle) : List ℚ :=
  (trailIdx p.trailLength).map fun t : ℕ =>
    p.currentAlpha * (1 - (t : ℚ) / (p.trailLength : ℚ)) * 0.6

/-- The trail size samples of one particle (webgl.js line 560). -/
def trailSizes (p : TrafficParticle) : List ℚ :=
  (trailIdx p.trailLength).map fun t : ℕ =>
    p.size * (1 - (t : ℚ) / (p.trailLength : ℚ) * 0.5)

/-- The trail hue samples of one particle (webgl.js line 561). -/
def trailHues (p : TrafficParticle) : List ℚ :=
  (trailIdx p.trailLength).map fun t : ℕ => p.hue + (t : ℚ) * 0.02

/-- The per-frame traffic-particle attribute arrays built in
TorusBackground.render (webgl.js lines 540-563):
(positions, alphas, sizes, hues) in push order, one head sample followed
by trailLength - 1 trail samples per particle. -/
def buildTrafficArrays (sinQ cosQ : ℚ → ℚ) (morphTime : ℚ) :
    List TrafficParticle → List ℚ × List ℚ × List ℚ × List ℚ
  | [] => ([], [], [], [])
  | p :: ps =>
    let rest := buildTrafficArrays sinQ cosQ morphTime ps
    (p.x :: p.y :: p.z :: (trailPositions sinQ cosQ morphTime p ++ rest.1),
      (p.currentAlpha :: (trailAlphas p ++ rest.2.1),
        (p.size :: (trailSizes p ++ rest.2.2.1),
          p.hue :: (trailHues p ++ rest.2.2.2))))

/-- createTorusGeometry vertex list (webgl.js lines 67-79): both loop
bounds are inclusive, so i runs over 0..segs and j over 0..tbs, and the
swept angles reach the full turn piQ * 2 at the last index. -/
def createTorusVertices (sinQ cosQ : ℚ → ℚ) (piQ torR torr : ℚ)
    (segs tbs : ℕ) : List ℚ :=
  (List.range (segs + 1)).flatMap fun i : ℕ =>
    (List.range (tbs + 1)).flatMap fun j : ℕ =>
      let u := ((i : ℚ) / (segs : ℚ)) * piQ * 2
      let v := ((j : ℚ) / (tbs : ℚ)) * piQ * 2
      let x := (torR + torr * cosQ v) * cosQ u
      let y := (torR + torr * cosQ v) * sinQ u
      let z := torr * sinQ v
      [x, y, z]

/-- createTorusGeometry wireframe index list (webgl.js lines 82-94):
for every i < segs and j < tbs, the pair (a, b) to the ring neighbor and
the pair (a, c) to the tube neighbor. -/
def createTorusIndices (segs tbs : ℕ) : List ℕ :=
  (List.range segs).flatMap fun i =>
    (List.range tbs).flatMap fun j =>
      let a := i * (tbs + 1) + j
      let b := a + tbs + 1
      let c := a + 1
      [a, b, a, c]

/-- this.vertexCount = vertices.length / 3 (webgl.js line 98). -/
def torusVertexCount (sinQ cosQ : ℚ → ℚ) (piQ torR torr : ℚ)
    (segs tbs : ℕ) : ℕ :=
  (createTorusVertices sinQ cosQ piQ torR torr segs tbs).length / 3

/-- this.indexCount = indices.length (webgl.js line 99). -/
def torusIndexCount (segs tbs : ℕ) : ℕ :=
  (createTorusIndices segs tbs).length

/-- Spec-side description of the wireframe, written from the claim's
words for the refinement comparison: a list of index pairs, one from
each grid vertex (i, j) with i < segs, j < tbs to its ring neighbor
(next i, offset tbs + 1 in the flattened grid) and one to its tube
neighbor (next j, offset 1). -/
def wireframePairsSpec (segs tbs : ℕ) : List (ℕ × ℕ) :=
  (List.range segs).flatMap fun i =>
    (List.range tbs).flatMap fun j =>
      let a := i * (tbs + 1) + j
      [(a, a + (tbs + 1)), (a, a + 1)]

namespace Topology

/-- A topology point (topology.js lines 36-51).  The constructor draws
six Math.random() values in source order: phase, phaseY, amplitude,
amplitudeY, frequency, frequencyY. -/
structure Point where
  x : ℚ
  y : ℚ
  originX : ℚ
  originY : ℚ
  phase : ℚ
  phaseY : ℚ
  amplitude : ℚ
  amplitudeY : ℚ
  frequency : ℚ
  frequencyY : ℚ
deriving DecidableEq

/-- The Point constructor, drawing randoms k..k+5 from the stream. -/
def mkPoint (piQ : ℚ) (rand : ℕ → ℚ) (k : ℕ) (x y : ℚ) : Point × ℕ :=
  ({ x := x
     y := y
     originX := x
     originY := y
     phase := rand k * piQ * 2
     phaseY := rand (k + 1) * piQ * 2
     amplitude := 25 + rand (k + 2) * 35
     amplitudeY := 25 + rand (k + 3) * 35
     frequency := 0.00015 + rand (k + 4) * 0.0001
     frequencyY := 0.0001 + rand (k + 5) * 0.00008 }, k + 6)

/-- cols = ceil(width / spacing) + 1 (topology.js line 134). -/
def cols (w spacing : ℚ) : ℕ := (⌈w / spacing⌉).toNat + 1

/-- rows = ceil(height / spacing) + 1 (topology.js line 135). -/
def rows (h spacing : ℚ) : ℕ := (⌈h / spacing⌉).toNat + 1

/-- The (i, j) grid traversal order of the nested createPoints loops:
i outer, j inner. -/
def gridCells (c r : ℕ) : List (ℕ × ℕ) :=
  (List.range c).flatMap fun i => (List.range r).map fun j => (i, j)

/-- The createPoints loop body (topology.js lines 138-145): two jitter
randoms, then the Point constructor's six randoms, per cell. -/
def createPointsLoop (piQ : ℚ) (rand : ℕ → ℚ) (spacing : ℚ) :
    List (ℕ × ℕ) → ℕ → List Point × ℕ
  | [], k => ([], k)
  | c :: rest, k =>
    let x := (c.1 : ℚ) * spacing + (rand k - 0.5) * spacing * 0.7
    let y := (c.2 : ℚ) * spacing + (rand (k + 1) - 0.5) * spacing * 0.7
    let pk := mkPoint piQ rand (k + 2) x y
    let rk := createPointsLoop piQ rand spacing rest pk.2
    (pk.1 :: rk.1, rk.2)

/-- createPoints (topology.js lines 130-146). -/
def createPoints (piQ : ℚ) (rand : ℕ → ℚ) (w h spacing : ℚ) (k : ℕ) :
    List Point × ℕ :=
  createPointsLoop piQ rand spacing (gridCells (cols w spacing) (rows h spacing)) k

/-- The geometry-relevant state of a Topology instance. rngK is the
position reached in the modelled Math.random() stream. -/
structure TopoState where
  width : ℚ
  height : ℚ
  canvasW : ℚ
  canvasH : ℚ
  points : List Point
  rngK : ℕ
deriving DecidableEq

/-- Topology.resize (topology.js lines 114-128): store the element
dimensions, set the canvas buffer to dimensions x dpr, and recreate the
points. -/
def resize (piQ : ℚ) (rand : ℕ → ℚ) (spacing rectW rectH dpr : ℚ)
    (st : TopoState) : TopoState :=
  let cp := createPoints piQ rand rectW rectH spacing st.rngK
  { width := rectW
    height := rectH
    canvasW := rectW * dpr
    canvasH := rectH * dpr
    points := cp.1
    rngK := cp.2 }

/-- Scheduling state of the Topology animation loop: the pending
requestAnimationFrame handle (animationId), how many ticks have run, the
next handle the host would hand out, and the handles passed to
cancelAnimationFrame. -/
structure LoopState where
  isRunning : Bool
  animationId : Option ℕ
  ticksRun : ℕ
  nextId : ℕ
  cancelled : List ℕ
deriving DecidableEq

/-- The body of Topology.animate (topology.js lines 162-185) as run by
the host when it invokes the callback: bail out if not running,
otherwise do one tick of state mutation and drawing and schedule the
next callback. -/
def animateStep (st : LoopState) : LoopState :=
  if st.isRunning then
    { st with
      ticksRun := st.ticksRun + 1
      animationId := some st.nextId
      nextId := st.nextId + 1 }
  else st

/-- The host fires the pending callback, if any: the handle is consumed
and the animate body runs. -/
def fireCallback (st : LoopState) : LoopState :=
  match st.animationId with
  | none => st
  | some _ => animateStep { st with animationId := none }

/-- Topology.stop (topology.js lines 154-160). -/
def stop (st : LoopState) : LoopState :=
  let st1 := { st with isRunning := false }
  match st1.animationId with
  | some i => { st1 with cancelled := i :: st1.cancelled, animationId := none }
  | none => st1

/-- Topology.start (topology.js lines 148-152). -/
def start (st : LoopState) : LoopState :=
  if st.isRunning then st else animateStep { st with isRunning := true }

/-- n host callback firings in sequence. -/
def fireIter : ℕ → LoopState → LoopState
  | 0, st => st
  | n + 1, st => fireCallback (fireIter n st)

end Topology

/-- The observable initialization effects of the background
constructors. -/
inductive InitEffect
  | warn (msg : String)
  | resizeCanvas
  | compileShaders
  | createGeometry
  | createParticles
  | createFlowField
  | bindEvents
  | startRenderLoop
deriving DecidableEq

/-- Trace-level model of the WebGLBackground constructor (part_000 lines
7-46): when the context is unavailable it logs a warning and returns;
otherwise init() runs.  A normal return is Except.ok; an uncaught
exception would be Except.error. -/
def constructWebGLBackground (glAvailable : Bool) :
    Except String (List InitEffect) :=
  if glAvailable then
    Except.ok [InitEffect.resizeCanvas, InitEffect.compileShaders,
      InitEffect.createParticles, InitEffect.createFlowField,
      InitEffect.bindEvents, InitEffect.startRenderLoop]
  else
    Except.ok [InitEffect.warn "WebGL not supported"]

/-- Trace-level model of the TorusBackground constructor (webgl.js lines
7-61), with the same degraded mode. -/
def constructTorusBackground (glAvailable : Bool) :
    Except String (List InitEffect) :=
  if glAvailable then
    Except.ok [InitEffect.resizeCanvas, InitEffect.createGeometry,
      InitEffect.createParticles, InitEffect.compileShaders,
      InitEffect.bindEvents, InitEffect.startRenderLoop]
  else
    Except.ok [InitEffect.warn "WebGL not supported"]

lemma combinedVelocity_nonneg (st : VelState) : 0 ≤ combinedVelocity st := by
  unfold combinedVelocity
  positivity

lemma updateVelocity_speed (st : VelState) :
    (updateVelocity st).speedMultiplier =
      st.speedMultiplier +
        (targetMult (combinedVelocity st) - st.speedMultiplier) * 0.08 := by
  simp only [updateVelocity, targetMult, combinedVelocity]

lemma updateVelocity_target (st : VelState) :
    (updateVelocity st).targetSpeedMultiplier =
      targetMult (combinedVelocity st) +
        (1 - targetMult (combinedVelocity st)) * 0.02 := by
  simp only [updateVelocity, targetMult, combinedVelocity]

lemma quiet_step (st : VelState) (h : quietInputs st) :
    quietInputs (updateVelocity st) ∧
      (updateVelocity st).speedMultiplier - 1 =
        (23 / 25) * (st.speedMultiplier - 1) := by
  obtain ⟨h1, h2, h3⟩ := h
  constructor
  · exact ⟨rfl, rfl, rfl⟩
  · rw [updateVelocity_speed]
    have hcv : combinedVelocity st = 0 := by
      unfold combinedVelocity
      rw [h1, h2, h3]
      simp
    rw [hcv]
    unfold targetMult
    norm_num
    ring

lemma quiet_iter (st : VelState) (h : quietInputs st) (n : ℕ) :
    quietInputs (iterVel n st) ∧
      (iterVel n st).speedMultiplier - 1 =
        (23 / 25) ^ n * (st.speedMultiplier - 1) := by
  induction n with
  | zero => exact ⟨h, by simp [iterVel]⟩
  | succ n ih =>
    obtain ⟨hq, hs⟩ := ih
    obtain ⟨hq2, hs2⟩ := quiet_step _ hq
    refine ⟨hq2, ?_⟩
    have hstep : iterVel (n + 1) st = updateVelocity (iterVel n st) := rfl
    rw [hstep, hs2, hs]
    ring

/-- C1: In every frame's velocity update, the target speed multiplier is
computed as 1 + min(combinedVelocity * 3, 4); for every non-negative
combined velocity this target lies in [1, 5]; the state's combined
velocity is always non-negative; the live multiplier then moves toward
the target by a factor 0.08 of the gap, and the target then decays
toward 1 by a factor 0.02 of its gap. -/
theorem C1_updateVelocity_target_bounds_and_smoothing
    (st : VelState) (cv : ℚ) (hcv : 0 ≤ cv) :
    (1 ≤ targetMult cv ∧ targetMult cv ≤ 5) ∧
    0 ≤ combinedVelocity st ∧
    (updateVelocity st).speedMultiplier =
      st.speedMultiplier +
        (targetMult (combinedVelocity st) - st.speedMultiplier) * 0.08 ∧
    (updateVelocity st).targetSpeedMultiplier =
      targetMult (combinedVelocity st) +
        (1 - targetMult (combinedVelocity st)) * 0.02 := by
  refine ⟨⟨?_, ?_⟩, combinedVelocity_nonneg st,
    updateVelocity_speed st, updateVelocity_target st⟩
  · unfold targetMult
    have : (0 : ℚ) ≤ min (cv * 3) 4 :=
      le_min (by positivity) (by norm_num)
    linarith
  · unfold targetMult
    have : min (cv * 3) 4 ≤ 4 := min_le_right _ _
    linarith

/-- Witness for C1 at a concrete state and concrete combined velocity. -/
theorem C1_witness :
    (0 : ℚ) ≤ 2 ∧
    ((1 ≤ targetMult 2 ∧ targetMult 2 ≤ 5) ∧
     0 ≤ combinedVelocity ⟨0, 0, 0, 0.5, 0.5, 0.5, 0.5, 0, 1, 1⟩ ∧
     (updateVelocity ⟨0, 0, 0, 0.5, 0.5, 0.5, 0.5, 0, 1, 1⟩).speedMultiplier =
       (1 : ℚ) +
         (targetMult (combinedVelocity ⟨0, 0, 0, 0.5, 0.5, 0.5, 0.5, 0, 1, 1⟩) - 1) * 0.08 ∧
     (updateVelocity ⟨0, 0, 0, 0.5, 0.5, 0.5, 0.5, 0, 1, 1⟩).targetSpeedMultiplier =
       targetMult (combinedVelocity ⟨0, 0, 0, 0.5, 0.5, 0.5, 0.5, 0, 1, 1⟩) +
         (1 - targetMult (combinedVelocity ⟨0, 0, 0, 0.5, 0.5, 0.5, 0.5, 0, 1, 1⟩)) * 0.02) :=
  ⟨by norm_num,
   C1_updateVelocity_target_bounds_and_smoothing ⟨0, 0, 0, 0.5, 0.5, 0.5, 0.5, 0, 1, 1⟩ 2
     (by norm_num)⟩

/-- C7: with the velocity input held at 0 (inputs equal to their last
remembered values, unchanged across ticks) and the live multiplier
starting at 3.0, after 100 ticks the live multiplier is within 0.01 of
1.0, and at every tick the gap to 1 decays geometrically by the factor
1 - 0.08. -/
theorem C7_speed_decay (st : VelState)
    (h1 : st.lastScrollY = st.scrollY)
    (h2 : st.lastMouseX = st.mouseX)
    (h3 : st.lastMouseY = st.mouseY)
    (hs : st.speedMultiplier = 3) :
    |(iterVel 100 st).speedMultiplier - 1| ≤ 0.01 ∧
    ∀ n, (iterVel (n + 1) st).speedMultiplier - 1 =
      (1 - 0.08) * ((iterVel n st).speedMultiplier - 1) := by
  have hq : quietInputs st := ⟨h1, h2, h3⟩
  constructor
  · obtain ⟨-, hs100⟩ := quiet_iter st hq 100
    rw [hs100, hs]
    have hpow : ((23 : ℚ) / 25) ^ 100 * (3 - 1) ≤ 0.01 := by
      rw [div_pow]
      rw [div_mul_eq_mul_div, div_le_iff₀ (by positivity)]
      norm_num
    have hpos : (0 : ℚ) ≤ (23 / 25) ^ 100 * (3 - 1) := by positivity
    rw [abs_of_nonneg hpos]
    exact hpow
  · intro n
    obtain ⟨hqn, -⟩ := quiet_iter st hq n
    obtain ⟨-, hstep⟩ := quiet_step _ hqn
    rw [iterVel]
    rw [hstep]
    norm_num

/-- Witness for C7 at a concrete quiet state with multiplier 3. -/
theorem C7_witness :
    ((0 : ℚ) = 0 ∧ (0.5 : ℚ) = 0.5 ∧ (0.5 : ℚ) = 0.5 ∧ (3 : ℚ) = 3) ∧
    (|(iterVel 100 ⟨0, 0, 0, 0.5, 0.5, 0.5, 0.5, 0, 3, 1⟩).speedMultiplier - 1| ≤ 0.01 ∧
     ∀ n, (iterVel (n + 1) ⟨0, 0, 0, 0.5, 0.5, 0.5, 0.5, 0, 3, 1⟩).speedMultiplier - 1 =
       (1 - 0.08) * ((iterVel n ⟨0, 0, 0, 0.5, 0.5, 0.5, 0.5, 0, 3, 1⟩).speedMultiplier - 1)) :=
  ⟨⟨rfl, rfl, rfl, rfl⟩,
   C7_speed_decay ⟨0, 0, 0, 0.5, 0.5, 0.5, 0.5, 0, 3, 1⟩ rfl rfl rfl rfl⟩

lemma flowIdx_bounds (x y : ℚ) (hx0 : 0 ≤ x) (hx1 : x ≤ 1)
    (hy0 : 0 ≤ y) (hy1 : y ≤ 1) :
    0 ≤ flowIdx x y ∧ flowIdx x y < 400 := by
  have h19 : ((flowFieldSize : ℚ) - 1) = 19 := by norm_num [flowFieldSize]
  have hgx0 : (0 : ℤ) ≤ ⌊x * ((flowFieldSize : ℚ) - 1)⌋ := by
    rw [h19]
    exact Int.floor_nonneg.mpr (by positivity)
  have hgx1 : ⌊x * ((flowFieldSize : ℚ) - 1)⌋ ≤ 19 := by
    rw [h19]
    have hle : x * (19 : ℚ) ≤ 19 := by nlinarith
    calc ⌊x * (19 : ℚ)⌋ ≤ ⌊(19 : ℚ)⌋ := Int.floor_le_floor hle
      _ = 19 := by norm_num
  have hgy0 : (0 : ℤ) ≤ ⌊y * ((flowFieldSize : ℚ) - 1)⌋ := by
    rw [h19]
    exact Int.floor_nonneg.mpr (by positivity)
  have hgy1 : ⌊y * ((flowFieldSize : ℚ) - 1)⌋ ≤ 19 := by
    rw [h19]
    have hle : y * (19 : ℚ) ≤ 19 := by nlinarith
    calc ⌊y * (19 : ℚ)⌋ ≤ ⌊(19 : ℚ)⌋ := Int.floor_le_floor hle
      _ = 19 := by norm_num
  unfold flowIdx
  have hsz : (flowFieldSize : ℤ) = 20 := rfl
  rw [hsz]
  omega

/-- C3: getFlowAt is total: on any normalized position in the unit
square the computed grid index is in bounds and the lookup returns the
time-perturbed cell vector, and whenever the computed index is out of
bounds the lookup returns the zero vector. -/
theorem C3_getFlowAt_total (sinQ cosQ : ℚ → ℚ) (field : List FlowCell)
    (x y t : ℚ) (hlen : field.length = 400)
    (hx0 : 0 ≤ x) (hx1 : x ≤ 1) (hy0 : 0 ≤ y) (hy1 : y ≤ 1) :
    (0 ≤ flowIdx x y ∧ flowIdx x y < 400) ∧
    getFlowAt sinQ cosQ field x y t =
      ((fun flow =>
        (fun animatedAngle =>
          (cosQ animatedAngle * flow.strength,
            sinQ animatedAngle * flow.strength))
          (flow.angle + sinQ (t * 0.0003 + (flowIdx x y : ℚ) * 0.1) * 0.5))
        (field.getD (flowIdx x y).toNat ⟨0, 0⟩)) ∧
    ∀ x2 y2 : ℚ,
      ¬(0 ≤ flowIdx x2 y2 ∧ flowIdx x2 y2 < (field.length : ℤ)) →
        getFlowAt sinQ cosQ field x2 y2 t = (0, 0) := by
  obtain ⟨h0, h400⟩ := flowIdx_bounds x y hx0 hx1 hy0 hy1
  refine ⟨⟨h0, h400⟩, ?_, ?_⟩
  · unfold getFlowAt
    rw [if_pos ⟨h0, by rw [hlen]; exact_mod_cast h400⟩]
  · intro x2 y2 hn
    unfold getFlowAt
    rw [if_neg hn]

/-- Witness for C3 at the corner (1, 1) of the unit square, on a full
400-cell field. -/
theorem C3_witness :
    (List.replicate 400 (⟨0, 1⟩ : FlowCell)).length = 400 ∧
    ((0 ≤ flowIdx 1 1 ∧ flowIdx 1 1 < 400) ∧
     getFlowAt (fun _ => 0) (fun _ => 1)
         (List.replicate 400 (⟨0, 1⟩ : FlowCell)) 1 1 0 =
       ((fun flow =>
         (fun animatedAngle =>
           ((fun _ => (1 : ℚ)) animatedAngle * flow.strength,
             (fun _ => (0 : ℚ)) animatedAngle * flow.strength))
           (flow.angle +
             (fun _ => (0 : ℚ)) ((0 : ℚ) * 0.0003 + (flowIdx 1 1 : ℚ) * 0.1) * 0.5))
         ((List.replicate 400 (⟨0, 1⟩ : FlowCell)).getD (flowIdx 1 1).toNat ⟨0, 0⟩)) ∧
     ∀ x2 y2 : ℚ,
       ¬(0 ≤ flowIdx x2 y2 ∧
           flowIdx x2 y2 < ((List.replicate 400 (⟨0, 1⟩ : FlowCell)).length : ℤ)) →
         getFlowAt (fun _ => 0) (fun _ => 1)
           (List.replicate 400 (⟨0, 1⟩ : FlowCell)) x2 y2 0 = (0, 0)) :=
  ⟨by rw [List.length_replicate],
   C3_getFlowAt_total (fun _ => 0) (fun _ => 1)
     (List.replicate 400 (⟨0, 1⟩ : FlowCell)) 1 1 0 (by rw [List.length_replicate])
     (by norm_num) (by norm_num) (by norm_num) (by norm_num)⟩

lemma wrapCoord_mem (x base : ℚ) :
    -0.1 ≤ (wrapCoord x base).1 ∧ (wrapCoord x base).1 ≤ 1.1 := by
  unfold wrapCoord
  split_ifs with h1 h2
  · norm_num
  · norm_num
  · push_neg at h1 h2
    exact ⟨h1, h2⟩

lemma updateParticle_band (sinQ cosQ : ℚ → ℚ) (rand : ℕ → ℚ)
    (field : List FlowCell) (time speed : ℚ) (p : Particle) (k : ℕ) :
    -0.1 ≤ (updateParticle sinQ cosQ rand field time speed p k).1.x ∧
    (updateParticle sinQ cosQ rand field time speed p k).1.x ≤ 1.1 ∧
    -0.1 ≤ (updateParticle sinQ cosQ rand field time speed p k).1.y ∧
    (updateParticle sinQ cosQ rand field time speed p k).1.y ≤ 1.1 := by
  simp only [updateParticle]
  exact ⟨(wrapCoord_mem _ _).1, (wrapCoord_mem _ _).2,
    (wrapCoord_mem _ _).1, (wrapCoord_mem _ _).2⟩

lemma updateParticles_band (sinQ cosQ : ℚ → ℚ) (rand : ℕ → ℚ)
    (field : List FlowCell) (time speed : ℚ) (ps : List Particle) :
    ∀ k : ℕ,
      ∀ q ∈ (updateParticles sinQ cosQ rand field time speed ps k).1,
        -0.1 ≤ q.x ∧ q.x ≤ 1.1 ∧ -0.1 ≤ q.y ∧ q.y ≤ 1.1 := by
  induction ps with
  | nil =>
    intro k q hq
    simp [updateParticles] at hq
  | cons p ps ih =>
    intro k q hq
    simp only [updateParticles] at hq
    rcases List.mem_cons.mp hq with h | h
    · subst h
      exact updateParticle_band sinQ cosQ rand field time speed p k
    · exact ih _ q h

/-- C2: after every particle update step of the flow-field variant,
every particle coordinate lies in [-0.1, 1.1], and starting from
particles created with coordinates in [0, 1] no coordinate escapes the
band across arbitrarily many update ticks, for any sinus/random
environment, any flow field and any per-tick time and speed values. -/
theorem C2_particle_wrap_invariant (sinQ cosQ : ℚ → ℚ) (rand : ℕ → ℚ)
    (field : List FlowCell) (times speeds : ℕ → ℚ)
    (ps : List Particle) (k : ℕ)
    (h0 : ∀ p ∈ ps, 0 ≤ p.x ∧ p.x ≤ 1 ∧ 0 ≤ p.y ∧ p.y ≤ 1) :
    ∀ n : ℕ,
      ∀ q ∈ (updateTicks sinQ cosQ rand field times speeds n (ps, k)).1,
        -0.1 ≤ q.x ∧ q.x ≤ 1.1 ∧ -0.1 ≤ q.y ∧ q.y ≤ 1.1 := by
  intro n
  induction n with
  | zero =>
    intro q hq
    simp only [updateTicks] at hq
    obtain ⟨a, b, c, d⟩ := h0 q hq
    exact ⟨by linarith, by linarith, by linarith, by linarith⟩
  | succ n ih =>
    intro q hq
    simp only [updateTicks] at hq
    exact updateParticles_band sinQ cosQ rand field _ _ _ _ q hq

/-- Witness for C2: a single particle at the center of the unit square,
three ticks of a zero-sinus zero-random environment. -/
theorem C2_witness :
    (∀ p ∈ [(⟨0, 1, 0, 1, 3, 1, 1, 1, 7, 1, 1, none,
        none⟩ : Particle)], 0 ≤ p.x ∧ p.x ≤ 1 ∧ 0 ≤ p.y ∧ p.y ≤ 1) ∧
    ∀ q ∈ (updateTicks (fun _ => 0) (fun _ => 0) (fun _ => 0) []
        (fun n => (n : ℚ)) (fun _ => 1) 3
        ([(⟨0, 1, 0, 1, 3, 1, 1, 1, 7, 1, 1, none,
          none⟩ : Particle)], 0)).1,
      -0.1 ≤ q.x ∧ q.x ≤ 1.1 ∧ -0.1 ≤ q.y ∧ q.y ≤ 1.1 :=
  ⟨by decide,
   C2_particle_wrap_invariant (fun _ => 0) (fun _ => 0) (fun _ => 0) []
     (fun n => (n : ℚ)) (fun _ => 1)
     [(⟨0, 1, 0, 1, 3, 1, 1, 1, 7, 1, 1, none,
       none⟩ : Particle)] 0 (by decide) 3⟩

lemma length_flatMap_const {α β : Type} (l : List α) (f : α → List β)
    (c : ℕ) (h : ∀ a, (f a).length = c) :
    (l.flatMap f).length = c * l.length := by
  induction l with
  | nil => simp
  | cons a l ih =>
    simp only [List.flatMap_cons, List.length_append, List.length_cons, ih,
      h a]
    ring

lemma trailIdx_length (n : ℕ) : (trailIdx n).length = n - 1 := by
  simp [trailIdx]

lemma trailPositions_length (sinQ cosQ : ℚ → ℚ) (morphTime : ℚ)
    (p : TrafficParticle) :
    (trailPositions sinQ cosQ morphTime p).length =
      3 * (p.trailLength - 1) := by
  have hlen := length_flatMap_const (trailIdx p.trailLength)
    (fun t : ℕ =>
      let q := getTorusPoint sinQ cosQ (p.u - p.dirU * (t : ℚ) * 2)
        (p.v - p.dirV * (t : ℚ) * 2) morphTime
      [q.1, q.2.1, q.2.2]) 3 (fun t => rfl)
  unfold trailPositions
  rw [hlen, trailIdx_length]

lemma trailAlphas_length (p : TrafficParticle) :
    (trailAlphas p).length = p.trailLength - 1 := by
  unfold trailAlphas
  rw [List.length_map, trailIdx_length]

lemma trailSizes_length (p : TrafficParticle) :
    (trailSizes p).length = p.trailLength - 1 := by
  unfold trailSizes
  rw [List.length_map, trailIdx_length]

lemma trailHues_length (p : TrafficParticle) :
    (trailHues p).length = p.trailLength - 1 := by
  unfold trailHues
  rw [List.length_map, trailIdx_length]

lemma buildFlowArrays_lengths (dpr : ℚ) (ps : List Particle) :
    (buildFlowArrays dpr ps).1.length = 2 * ps.length ∧
    (buildFlowArrays dpr ps).2.1.length = ps.length ∧
    (buildFlowArrays dpr ps).2.2.1.length = ps.length ∧
    (buildFlowArrays dpr ps).2.2.2.length = ps.length := by
  induction ps with
  | nil => simp [buildFlowArrays]
  | cons p ps ih =>
    obtain ⟨a, b, c, d⟩ := ih
    simp only [buildFlowArrays, List.length_cons]
    omega

lemma buildTrafficArrays_lengths (sinQ cosQ : ℚ → ℚ) (morphTime : ℚ)
    (ps : List TrafficParticle) (h : ∀ p ∈ ps, 1 ≤ p.trailLength) :
    (buildTrafficArrays sinQ cosQ morphTime ps).1.length =
      3 * (ps.map (·.trailLength)).sum ∧
    (buildTrafficArrays sinQ cosQ morphTime ps).2.1.length =
      (ps.map (·.trailLength)).sum ∧
    (buildTrafficArrays sinQ cosQ morphTime ps).2.2.1.length =
      (ps.map (·.trailLength)).sum ∧
    (buildTrafficArrays sinQ cosQ morphTime ps).2.2.2.length =
      (ps.map (·.trailLength)).sum := by
  induction ps with
  | nil => simp [buildTrafficArrays]
  | cons p ps ih =>
    obtain ⟨a, b, c, d⟩ := ih (fun q hq => h q (List.mem_cons_of_mem p hq))
    have hp : 1 ≤ p.trailLength := h p (List.mem_cons_self p ps)
    simp only [buildTrafficArrays, List.length_cons, List.length_append,
      List.map_cons, List.sum_cons, trailPositions_length,
      trailAlphas_length, trailSizes_length, trailHues_length]
    omega

/-- C4: the per-frame attribute arrays meet the upload length contract:
in the flow-field variant positions have length 2N and sizes, alphas,
hues length N for every particle list of length N; in the torus variant
each particle contributes 1 head sample plus trailLength - 1 trail
samples, so positions have length 3 x (sum of trailLengths) and alphas,
sizes, hues have length sum of trailLengths. -/
theorem C4_buffer_lengths (dpr : ℚ) (sinQ cosQ : ℚ → ℚ) (morphTime : ℚ)
    (fps : List Particle) (tps : List TrafficParticle)
    (h : ∀ p ∈ tps, 1 ≤ p.trailLength) :
    (buildFlowArrays dpr fps).1.length = 2 * fps.length ∧
    (buildFlowArrays dpr fps).2.1.length = fps.length ∧
    (buildFlowArrays dpr fps).2.2.1.length = fps.length ∧
    (buildFlowArrays dpr fps).2.2.2.length = fps.length ∧
    (buildTrafficArrays sinQ cosQ morphTime tps).1.length =
      3 * (tps.map (·.trailLength)).sum ∧
    (buildTrafficArrays sinQ cosQ morphTime tps).2.1.length =
      (tps.map (·.trailLength)).sum ∧
    (buildTrafficArrays sinQ cosQ morphTime tps).2.2.1.length =
      (tps.map (·.trailLength)).sum ∧
    (buildTrafficArrays sinQ cosQ morphTime tps).2.2.2.length =
      (tps.map (·.trailLength)).sum := by
  obtain ⟨a, b, c, d⟩ := buildFlowArrays_lengths dpr fps
  obtain ⟨e, f, g, i⟩ := buildTrafficArrays_lengths sinQ cosQ morphTime tps h
  exact ⟨a, b, c, d, e, f, g, i⟩

/-- Witness for C4 on one flow particle and one traffic particle with
trail length 3. -/
theorem C4_witness :
    (∀ p ∈ [(⟨0, 0, 0, 0, 3, 1, 1, 2, 1, 1, 0, 0, 0, 1⟩ : TrafficParticle)], 1 ≤ p.trailLength) ∧
    ((buildFlowArrays 2
        [(⟨0, 1, 0, 1, 3, 1, 1, 1, 7, 1, 1, none, none⟩ : Particle)]).1.length =
      2 * 1 ∧
     (buildFlowArrays 2
        [(⟨0, 1, 0, 1, 3, 1, 1, 1, 7, 1, 1, none, none⟩ : Particle)]).2.1.length = 1 ∧
     (buildFlowArrays 2
        [(⟨0, 1, 0, 1, 3, 1, 1, 1, 7, 1, 1, none, none⟩ : Particle)]).2.2.1.length = 1 ∧
     (buildFlowArrays 2
        [(⟨0, 1, 0, 1, 3, 1, 1, 1, 7, 1, 1, none, none⟩ : Particle)]).2.2.2.length = 1 ∧
     (buildTrafficArrays (fun _ => 0) (fun _ => 1) 0
        [(⟨0, 0, 0, 0, 3, 1, 1, 2, 1, 1, 0, 0, 0, 1⟩ : TrafficParticle)]).1.length =
      3 * ([(⟨0, 0, 0, 0, 3, 1, 1, 2, 1, 1, 0, 0, 0, 1⟩ : TrafficParticle)].map (·.trailLength)).sum ∧
     (buildTrafficArrays (fun _ => 0) (fun _ => 1) 0
        [(⟨0, 0, 0, 0, 3, 1, 1, 2, 1, 1, 0, 0, 0, 1⟩ : TrafficParticle)]).2.1.length =
      ([(⟨0, 0, 0, 0, 3, 1, 1, 2, 1, 1, 0, 0, 0, 1⟩ : TrafficParticle)].map (·.trailLength)).sum ∧
     (buildTrafficArrays (fun _ => 0) (fun _ => 1) 0
        [(⟨0, 0, 0, 0, 3, 1, 1, 2, 1, 1, 0, 0, 0, 1⟩ : TrafficParticle)]).2.2.1.length =
      ([(⟨0, 0, 0, 0, 3, 1, 1, 2, 1, 1, 0, 0, 0, 1⟩ : TrafficParticle)].map (·.trailLength)).sum ∧
     (buildTrafficArrays (fun _ => 0) (fun _ => 1) 0
        [(⟨0, 0, 0, 0, 3, 1, 1, 2, 1, 1, 0, 0, 0, 1⟩ : TrafficParticle)]).2.2.2.length =
      ([(⟨0, 0, 0, 0, 3, 1, 1, 2, 1, 1, 0, 0, 0, 1⟩ : TrafficParticle)].map (·.trailLength)).sum) :=
  ⟨by decide,
   C4_buffer_lengths 2 (fun _ => 0) (fun _ => 1) 0
     [(⟨0, 1, 0, 1, 3, 1, 1, 1, 7, 1, 1, none, none⟩ : Particle)]
     [(⟨0, 0, 0, 0, 3, 1, 1, 2, 1, 1, 0, 0, 0, 1⟩ : TrafficParticle)]
     (by decide)⟩

/-- C10: for every hex color in [0, 0xFFFFFF], hexToRgb returns channels
in [0, 255] whose recomposition r * 65536 + g * 256 + b equals the input:
the decomposition is a lossless round trip of the 24-bit color. -/
theorem C10_hexToRgb_roundtrip (hex : Nat) (h : hex ≤ 16777215) :
    (hexToRgb hex).1 ≤ 255 ∧ (hexToRgb hex).2.1 ≤ 255 ∧
    (hexToRgb hex).2.2 ≤ 255 ∧
    (hexToRgb hex).1 * 65536 + (hexToRgb hex).2.1 * 256 +
      (hexToRgb hex).2.2 = hex := by
  have hmask : ∀ x : Nat, x &&& 255 = x % 256 := by
    intro x
    have h255 : (255 : Nat) = 2 ^ 8 - 1 := by norm_num
    rw [h255, Nat.and_pow_two_sub_one_eq_mod]
  have hsh : ∀ x m : Nat, x >>> m = x / 2 ^ m := fun x m =>
    Nat.shiftRight_eq_div_pow x m
  unfold hexToRgb
  rw [hmask, hmask, hmask, hsh, hsh]
  norm_num
  omega

/-- Witness for C10 at the default topology color 0x3b82f6. -/
theorem C10_witness :
    3900150 ≤ 16777215 ∧
    ((hexToRgb 3900150).1 ≤ 255 ∧ (hexToRgb 3900150).2.1 ≤ 255 ∧
     (hexToRgb 3900150).2.2 ≤ 255 ∧
     (hexToRgb 3900150).1 * 65536 + (hexToRgb 3900150).2.1 * 256 +
       (hexToRgb 3900150).2.2 = 3900150) :=
  ⟨by norm_num, C10_hexToRgb_roundtrip 3900150 (by norm_num)⟩

lemma createTorusVertices_length (sinQ cosQ : ℚ → ℚ) (piQ torR torr : ℚ)
    (segs tbs : ℕ) :
    (createTorusVertices sinQ cosQ piQ torR torr segs tbs).length =
      3 * ((segs + 1) * (tbs + 1)) := by
  have hin : ∀ i : ℕ,
      (((List.range (tbs + 1)).flatMap fun j : ℕ =>
        let u := ((i : ℚ) / (segs : ℚ)) * piQ * 2
        let v := ((j : ℚ) / (tbs : ℚ)) * piQ * 2
        let x := (torR + torr * cosQ v) * cosQ u
        let y := (torR + torr * cosQ v) * sinQ u
        let z := torr * sinQ v
        [x, y, z]).length) = 3 * (tbs + 1) := by
    intro i
    have h3 := length_flatMap_const (List.range (tbs + 1))
      (fun j : ℕ =>
        let u := ((i : ℚ) / (segs : ℚ)) * piQ * 2
        let v := ((j : ℚ) / (tbs : ℚ)) * piQ * 2
        let x := (torR + torr * cosQ v) * cosQ u
        let y := (torR + torr * cosQ v) * sinQ u
        let z := torr * sinQ v
        [x, y, z]) 3 (fun j => rfl)
    rw [h3, List.length_range]
  have houter := length_flatMap_const (List.range (segs + 1))
    (fun i : ℕ => (List.range (tbs + 1)).flatMap fun j : ℕ =>
      let u := ((i : ℚ) / (segs : ℚ)) * piQ * 2
      let v := ((j : ℚ) / (tbs : ℚ)) * piQ * 2
      let x := (torR + torr * cosQ v) * cosQ u
      let y := (torR + torr * cosQ v) * sinQ u
      let z := torr * sinQ v
      [x, y, z]) (3 * (tbs + 1)) hin
  unfold createTorusVertices
  rw [houter, List.length_range]
  ring

lemma createTorusIndices_length (segs tbs : ℕ) :
    (createTorusIndices segs tbs).length = 4 * (segs * tbs) := by
  have hin : ∀ i : ℕ,
      (((List.range tbs).flatMap fun j =>
        let a := i * (tbs + 1) + j
        let b := a + tbs + 1
        let c := a + 1
        [a, b, a, c]).length) = 4 * tbs := by
    intro i
    have h4 := length_flatMap_const (List.range tbs)
      (fun j =>
        let a := i * (tbs + 1) + j
        let b := a + tbs + 1
        let c := a + 1
        [a, b, a, c]) 4 (fun j => rfl)
    rw [h4, List.length_range]
  have houter := length_flatMap_const (List.range segs)
    (fun i => (List.range tbs).flatMap fun j =>
      let a := i * (tbs + 1) + j
      let b := a + tbs + 1
      let c := a + 1
      [a, b, a, c]) (4 * tbs) hin
  unfold createTorusIndices
  rw [houter, List.length_range]
  ring

lemma createTorusIndices_eq_spec (segs tbs : ℕ) :
    createTorusIndices segs tbs =
      (wireframePairsSpec segs tbs).flatMap fun pr => [pr.1, pr.2] := by
  unfold createTorusIndices wireframePairsSpec
  simp only [List.flatMap_assoc]
  rfl

/-- C6 counterexample: with the source's own parameters (64 ring
segments, 32 tube segments) createTorusGeometry produces 65 x 33 = 2145
vertices, refuting the claim that the grid has
segments x tubes = 2048 vertices. -/
theorem C6_torus_grid_counterexample :
    torusVertexCount (fun _ => 0) (fun _ => 1) (355 / 113) 1 (7 / 20) 64 32 =
      2145 ∧ (2145 : ℕ) ≠ 64 * 32 := by
  constructor
  · unfold torusVertexCount
    rw [createTorusVertices_length]
  · norm_num

/-- C6 amended: the torus mesh builder generates a rectangular grid of
(segments + 1) x (tubes + 1) vertices, sweeping the two angles over the
closed interval [0, 2 pi] (the seam row and column are duplicated), and
emits one line-index pair from each of the segments x tubes base grid
vertices to its ring neighbor and one to its tube neighbor, a wireframe
of 4 x segments x tubes indices. -/
theorem C6_torus_grid_amended (sinQ cosQ : ℚ → ℚ) (piQ torR torr : ℚ)
    (segs tbs : ℕ) :
    torusVertexCount sinQ cosQ piQ torR torr segs tbs =
      (segs + 1) * (tbs + 1) ∧
    torusIndexCount segs tbs = 4 * (segs * tbs) ∧
    createTorusIndices segs tbs =
      (wireframePairsSpec segs tbs).flatMap fun pr => [pr.1, pr.2] := by
  refine ⟨?_, ?_, createTorusIndices_eq_spec segs tbs⟩
  · unfold torusVertexCount
    rw [createTorusVertices_length]
    omega
  · unfold torusIndexCount
    rw [createTorusIndices_length]

lemma createPointsLoop_length (piQ : ℚ) (rand : ℕ → ℚ) (spacing : ℚ)
    (cells : List (ℕ × ℕ)) :
    ∀ k : ℕ,
      (Topology.createPointsLoop piQ rand spacing cells k).1.length =
        cells.length := by
  induction cells with
  | nil => intro k; rfl
  | cons c cells ih =>
    intro k
    simp only [Topology.createPointsLoop, List.length_cons, ih]

lemma createPoints_length (piQ : ℚ) (rand : ℕ → ℚ) (w h spacing : ℚ)
    (k : ℕ) :
    (Topology.createPoints piQ rand w h spacing k).1.length =
      (Topology.gridCells (Topology.cols w spacing)
        (Topology.rows h spacing)).length :=
  createPointsLoop_length piQ rand spacing _ k

/-- C5 counterexample: calling resize twice with unchanged dimensions
does not reproduce the same point set bit for bit, because createPoints
draws fresh jitter and phase randomness on every call; at a 50 x 50
viewport with the default spacing 120 and a random stream that returns 0 for the first 32 draws and 1
afterwards, the two point lists differ. -/
theorem C5_resize_counterexample :
    (Topology.resize 3 (fun n => if n < 32 then (0 : ℚ) else 1) 120 50 50 1
        (Topology.resize 3 (fun n => if n < 32 then (0 : ℚ) else 1) 120 50 50 1
          ⟨0, 0, 0, 0, [], 0⟩)).points ≠
      (Topology.resize 3 (fun n => if n < 32 then (0 : ℚ) else 1) 120 50 50 1
        ⟨0, 0, 0, 0, [], 0⟩).points := by
  have hceil : ⌈(50 : ℚ) / 120⌉ = 1 := by
    rw [Int.ceil_eq_iff]
    norm_num
  have hc : Topology.cols 50 120 = 2 := by
    unfold Topology.cols
    rw [hceil]
    decide
  have hr : Topology.rows 50 120 = 2 := by
    unfold Topology.rows
    rw [hceil]
    decide
  have hcells : Topology.gridCells 2 2 = [(0, 0), (0, 1), (1, 0), (1, 1)] := by
    decide
  have hK : (Topology.createPoints 3 (fun n => if n < 32 then (0 : ℚ) else 1)
      50 50 120 0).2 = 32 := by
    unfold Topology.createPoints
    rw [hc, hr, hcells]
    decide
  intro hEq
  have hhead := congrArg (fun l => (l.map Topology.Point.x).head?) hEq
  simp only [Topology.resize] at hhead
  rw [hK] at hhead
  unfold Topology.createPoints at hhead
  rw [hc, hr, hcells] at hhead
  simp only [Topology.createPointsLoop, Topology.mkPoint, List.map_cons,
    List.head?_cons, Option.some.injEq] at hhead
  norm_num at hhead

/-- C5 amended: calling resize twice in succession with unchanged
viewport dimensions reproduces the same stored dimensions, the same
canvas buffer dimensions, and the same number of points, but the point
set itself is re-jittered with fresh randomness on every call, so it is
not bit-for-bit identical to a single call. -/
theorem C5_resize_amended (piQ : ℚ) (rand : ℕ → ℚ)
    (spacing rectW rectH dpr : ℚ) (st : Topology.TopoState) :
    (Topology.resize piQ rand spacing rectW rectH dpr
        (Topology.resize piQ rand spacing rectW rectH dpr st)).width =
      (Topology.resize piQ rand spacing rectW rectH dpr st).width ∧
    (Topology.resize piQ rand spacing rectW rectH dpr
        (Topology.resize piQ rand spacing rectW rectH dpr st)).height =
      (Topology.resize piQ rand spacing rectW rectH dpr st).height ∧
    (Topology.resize piQ rand spacing rectW rectH dpr
        (Topology.resize piQ rand spacing rectW rectH dpr st)).canvasW =
      (Topology.resize piQ rand spacing rectW rectH dpr st).canvasW ∧
    (Topology.resize piQ rand spacing rectW rectH dpr
        (Topology.resize piQ rand spacing rectW rectH dpr st)).canvasH =
      (Topology.resize piQ rand spacing rectW rectH dpr st).canvasH ∧
    (Topology.resize piQ rand spacing rectW rectH dpr
        (Topology.resize piQ rand spacing rectW rectH dpr st)).points.length =
      (Topology.resize piQ rand spacing rectW rectH dpr st).points.length := by
  refine ⟨rfl, rfl, rfl, rfl, ?_⟩
  show (Topology.createPoints piQ rand rectW rectH spacing _).1.length =
    (Topology.createPoints piQ rand rectW rectH spacing _).1.length
  rw [createPoints_length, createPoints_length]

/-- C8: when the WebGL rendering context is unavailable at construction,
both background constructors log the warning, raise no exception (the
trace result is a normal return, not an error), and perform no further
work: the whole effect trace is the single warning, so no shader
compilation, geometry creation or render-loop start occurs. -/
theorem C8_no_context_degraded :
    constructWebGLBackground false =
      Except.ok [InitEffect.warn "WebGL not supported"] ∧
    constructTorusBackground false =
      Except.ok [InitEffect.warn "WebGL not supported"] ∧
    (∃ tr, constructWebGLBackground false = Except.ok tr ∧
      ∀ e ∈ tr, e = InitEffect.warn "WebGL not supported") ∧
    (∃ tr, constructTorusBackground false = Except.ok tr ∧
      ∀ e ∈ tr, e = InitEffect.warn "WebGL not supported") :=
  ⟨rfl, rfl,
   ⟨[InitEffect.warn "WebGL not supported"], rfl, by
     intro e he
     simpa using he⟩,
   ⟨[InitEffect.warn "WebGL not supported"], rfl, by
     intro e he
     simpa using he⟩⟩

namespace Topology

lemma stop_spec (st : LoopState) (i : ℕ) (hid : st.animationId = some i) :
    stop st =
      ⟨false, none, st.ticksRun, st.nextId, i :: st.cancelled⟩ := by
  obtain ⟨r, aid, t, n, c⟩ := st
  simp only at hid
  subst hid
  rfl

lemma fireCallback_none (st : LoopState) (h : st.animationId = none) :
    fireCallback st = st := by
  unfold fireCallback
  rw [h]

lemma fireIter_none (st : LoopState) (h : st.animationId = none) :
    ∀ n, fireIter n st = st := by
  intro n
  induction n with
  | zero => rfl
  | succ n ih =>
    have : fireIter (n + 1) st = fireCallback (fireIter n st) := rfl
    rw [this, ih, fireCallback_none st h]

end Topology

/-- C9: calling stop() from the running state cancels the pending
scheduled callback (the handle is passed to cancelAnimationFrame and
cleared), and after stop() returns no further animation tick executes,
no matter how often the host would fire callbacks, until start() is
called, at which point exactly one tick runs and the next callback is
scheduled again. -/
theorem C9_stop_cancels (st : Topology.LoopState) (i : ℕ)
    (hrun : st.isRunning = true) (hid : st.animationId = some i) :
    (Topology.stop st).isRunning = false ∧
    (Topology.stop st).animationId = none ∧
    i ∈ (Topology.stop st).cancelled ∧
    (∀ n, (Topology.fireIter n (Topology.stop st)).ticksRun = st.ticksRun ∧
      (Topology.fireIter n (Topology.stop st)).animationId = none) ∧
    ∀ n,
      (Topology.start (Topology.fireIter n (Topology.stop st))).ticksRun =
        st.ticksRun + 1 ∧
      (Topology.start (Topology.fireIter n (Topology.stop st))).isRunning =
        true ∧
      (Topology.start
        (Topology.fireIter n (Topology.stop st))).animationId.isSome =
        true := by
  have hs := Topology.stop_spec st i hid
  rw [hs]
  have hnone :
      (⟨false, none, st.ticksRun, st.nextId, i :: st.cancelled⟩ :
        Topology.LoopState).animationId = none := rfl
  refine ⟨rfl, rfl, List.mem_cons_self i st.cancelled, ?_, ?_⟩
  · intro n
    rw [Topology.fireIter_none _ hnone n]
    exact ⟨rfl, rfl⟩
  · intro n
    rw [Topology.fireIter_none _ hnone n]
    exact ⟨rfl, rfl, rfl⟩

/-- Witness for C9 at a concrete running state with pending handle 5. -/
theorem C9_witness :
    ((⟨true, some 5, 7, 6, []⟩ : Topology.LoopState).isRunning = true ∧
     (⟨true, some 5, 7, 6, []⟩ : Topology.LoopState).animationId = some 5) ∧
    ((Topology.stop ⟨true, some 5, 7, 6, []⟩).isRunning = false ∧
     (Topology.stop ⟨true, some 5, 7, 6, []⟩).animationId = none ∧
     5 ∈ (Topology.stop ⟨true, some 5, 7, 6, []⟩).cancelled ∧
     (∀ n, (Topology.fireIter n
        (Topology.stop ⟨true, some 5, 7, 6, []⟩)).ticksRun = 7 ∧
       (Topology.fireIter n
         (Topology.stop ⟨true, some 5, 7, 6, []⟩)).animationId = none) ∧
     ∀ n,
       (Topology.start (Topology.fireIter n
         (Topology.stop ⟨true, some 5, 7, 6, []⟩))).ticksRun = 7 + 1 ∧
       (Topology.start (Topology.fireIter n
         (Topology.stop ⟨true, some 5, 7, 6, []⟩))).isRunning = true ∧
       (Topology.start (Topology.fireIter n
         (Topology.stop ⟨true, some 5, 7, 6, []⟩))).animationId.isSome =
         true) :=
  ⟨⟨rfl, rfl⟩, C9_stop_cancels ⟨true, some 5, 7, 6, []⟩ 5 rfl rfl⟩
